import Mathlib

/-!
Verification of the vatis telemetry agent (src/main.rs) against its
natural-language specification.

The Rust program is embedded shallowly:
* external effects (the MQTT client, the kernel-statistics reader, the
  system clock, the filesystem) are passed in explicitly as oracles;
* `SystemTime::now().duration_since(UNIX_EPOCH).as_nanos()` values are `Nat`;
* fallible external calls return `Except`/`Option`; a Rust `unwrap`/`expect`
  on an error value aborts the process, which the embedding models as `none`;
* `format!` string building is modelled by string concatenation, with Rust
  decimal rendering of unsigned integers modelled by `toString : Nat → String`.
-/

namespace Vatis

/-- A metric triple as produced by a collector: hierarchical path name,
capture timestamp in nanoseconds, and a textual value. -/
structure Metric where
  name : String
  timestamp : Nat
  value : String
deriving Repr, DecidableEq

/-- A broker message as handed to `cli.publish`: topic, payload and
quality-of-service level. -/
structure Message where
  topic : String
  payload : String
  qos : Nat
deriving Repr, DecidableEq

/-- The message built by `send` (src/main.rs:157-161): topic
`metrics/` + mac + `/` + metric name, payload ts + `;` + value, QoS 0. -/
def encode (mac : String) (m : Metric) : Message :=
  { topic := "metrics/" ++ mac ++ "/" ++ m.name
  , payload := toString m.timestamp ++ ";" ++ m.value
  , qos := 0 }

/-- Observable outcome of a sequence of `send` calls: the messages handed to
`cli.publish` in order, and the messages whose publish failed and were
logged with `warn!`. -/
structure DispatchResult where
  attempted : List Message
  warnings : List Message
deriving Repr, DecidableEq

/-- `send` (src/main.rs:156-166): builds the message, publishes it, and on
`Err` only logs a warning; it returns `()` to its caller in the source, so
the embedding returns just the observable trace. `pub` is the broker oracle:
`true` means `cli.publish` returned `Ok`. -/
def send (pub : Message → Bool) (mac : String) (metric : String) (ts : Nat)
    (mvalue : String) : DispatchResult :=
  let msg := encode mac { name := metric, timestamp := ts, value := mvalue }
  { attempted := [msg], warnings := if pub msg then [] else [msg] }

/-- Sequential composition of two dispatch traces. -/
def seqResult (r1 r2 : DispatchResult) : DispatchResult :=
  { attempted := r1.attempted ++ r2.attempted
  , warnings := r1.warnings ++ r2.warnings }

/-- Dispatch a list of metrics one after the other through `send`. -/
def dispatchMetrics (pub : Message → Bool) (mac : String) :
    List Metric → DispatchResult
  | [] => { attempted := [], warnings := [] }
  | m :: ms =>
      seqResult (send pub mac m.name m.timestamp m.value)
        (dispatchMetrics pub mac ms)

/-- Accumulate a decimal value over characters; `none` on the first
non-digit. -/
def parseDigitsAux : Nat → List Char → Option Nat
  | acc, [] => some acc
  | acc, c :: cs =>
      if c.isDigit then parseDigitsAux (acc * 10 + (c.toNat - 48)) cs
      else none

/-- Rust `str::parse::<u64>`: optional leading `+`, then at least one ASCII
digit, value must fit in 64 bits; anything else is an error. -/
def parse_u64 (s : String) : Option Nat :=
  let cs :=
    match s.data with
    | '+' :: rest => rest
    | l => l
  match cs with
  | [] => none
  | _ :: _ =>
      match parseDigitsAux 0 cs with
      | some n => if n < 2 ^ 64 then some n else none
      | none => none

/-- Interval resolution (src/main.rs:35-39): the second positional argument,
defaulting to `"10"` when absent, parsed as `u64`, falling back to `10` on a
parse error. -/
def getInterval (arg2 : Option String) : Nat :=
  (parse_u64 (arg2.getD "10")).getD 10

/-- `ifaces.retain(|x| x != "lo")` (src/main.rs:142): keep, in order, the
interface names different from `"lo"`. -/
def retainNonLo : List String → List String
  | [] => []
  | x :: xs => if x = "lo" then retainNonLo xs else x :: retainNonLo xs

/-- `get_mac` (src/main.rs:125-152): `ifaces` is the directory listing of
`/sys/class/net` in system enumeration order, `readFile` the filesystem
oracle (`none` = read error). After dropping `"lo"`, `ifaces[0]` panics on an
empty list (modelled `none`), otherwise the file
`/sys/class/net/<iface>/address` is read verbatim into the returned string;
a failed read panics via `expect` (modelled `none`). -/
def get_mac (ifaces : List String) (readFile : String → Option String) :
    Option String :=
  match retainNonLo ifaces with
  | [] => none
  | i :: _ => readFile ("/sys/class/net/" ++ i ++ "/address")

/-- The memory snapshot returned by `linux_stats::meminfo()`, with the 43
numeric fields the program reads (src/main.rs:178-220), in that order. The
field `bufers` keeps the source's spelling. -/
structure MemInfo where
  mem_total : Nat
  mem_free : Nat
  mem_available : Nat
  bufers : Nat
  cached : Nat
  swap_cached : Nat
  active : Nat
  active_anon : Nat
  active_file : Nat
  inactive : Nat
  inactive_anon : Nat
  inactive_file : Nat
  mlocked : Nat
  unevictable : Nat
  swap_total : Nat
  swap_free : Nat
  dirty : Nat
  writeback : Nat
  anon_pages : Nat
  mapped : Nat
  shmem : Nat
  s_reclaimable : Nat
  s_unreclaim : Nat
  slab : Nat
  kernel_stack : Nat
  page_tables : Nat
  nfs_unstable : Nat
  bounce : Nat
  writeback_tmp : Nat
  commit_limit : Nat
  committed_as : Nat
  vmalloc_total : Nat
  vmalloc_used : Nat
  vmalloc_chunk : Nat
  hardware_corrupted : Nat
  anon_huge_pages : Nat
  huge_pages_total : Nat
  huge_pages_free : Nat
  huge_pages_surp : Nat
  huge_pages_rsvd : Nat
  hugepagesize : Nat
  cma_total : Nat
  cma_free : Nat
deriving Repr, DecidableEq

/-- The metrics built by the body of `send_mem_stats` (src/main.rs:178-220):
one per field, in source order, all stamped with the single `now` captured at
the top of the function, values rendered in decimal. -/
def memMetrics (now : Nat) (mi : MemInfo) : List Metric :=
  [ { name := "memory/total", timestamp := now, value := toString mi.mem_total }
  , { name := "memory/free", timestamp := now, value := toString mi.mem_free }
  , { name := "memory/available", timestamp := now, value := toString mi.mem_available }
  , { name := "memory/buffers", timestamp := now, value := toString mi.bufers }
  , { name := "memory/cached", timestamp := now, value := toString mi.cached }
  , { name := "memory/swap/cached", timestamp := now, value := toString mi.swap_cached }
  , { name := "memory/active", timestamp := now, value := toString mi.active }
  , { name := "memory/active/anon", timestamp := now, value := toString mi.active_anon }
  , { name := "memory/active/file", timestamp := now, value := toString mi.active_file }
  , { name := "memory/inactive", timestamp := now, value := toString mi.inactive }
  , { name := "memory/inactive/anon", timestamp := now, value := toString mi.inactive_anon }
  , { name := "memory/inactive/file", timestamp := now, value := toString mi.inactive_file }
  , { name := "memory/mlocked", timestamp := now, value := toString mi.mlocked }
  , { name := "memory/unevictable", timestamp := now, value := toString mi.unevictable }
  , { name := "memory/swap/total", timestamp := now, value := toString mi.swap_total }
  , { name := "memory/swap/free", timestamp := now, value := toString mi.swap_free }
  , { name := "memory/dirty", timestamp := now, value := toString mi.dirty }
  , { name := "memory/writeback", timestamp := now, value := toString mi.writeback }
  , { name := "memory/anon-pages", timestamp := now, value := toString mi.anon_pages }
  , { name := "memory/mapped", timestamp := now, value := toString mi.mapped }
  , { name := "memory/shmem", timestamp := now, value := toString mi.shmem }
  , { name := "memory/sreclaimable", timestamp := now, value := toString mi.s_reclaimable }
  , { name := "memory/sunreclaim", timestamp := now, value := toString mi.s_unreclaim }
  , { name := "memory/slab", timestamp := now, value := toString mi.slab }
  , { name := "memory/kernelstack", timestamp := now, value := toString mi.kernel_stack }
  , { name := "memory/pagetables", timestamp := now, value := toString mi.page_tables }
  , { name := "memory/nfs-unstable", timestamp := now, value := toString mi.nfs_unstable }
  , { name := "memory/bounce", timestamp := now, value := toString mi.bounce }
  , { name := "memory/writebacktmp", timestamp := now, value := toString mi.writeback_tmp }
  , { name := "memory/commitlimit", timestamp := now, value := toString mi.commit_limit }
  , { name := "memory/committed-as", timestamp := now, value := toString mi.committed_as }
  , { name := "memory/vmalloc/total", timestamp := now, value := toString mi.vmalloc_total }
  , { name := "memory/vmalloc/used", timestamp := now, value := toString mi.vmalloc_used }
  , { name := "memory/vmalloc/chunk", timestamp := now, value := toString mi.vmalloc_chunk }
  , { name := "memory/hardware-corrupted", timestamp := now, value := toString mi.hardware_corrupted }
  , { name := "memory/hugepages/anon", timestamp := now, value := toString mi.anon_huge_pages }
  , { name := "memory/hugepages/total", timestamp := now, value := toString mi.huge_pages_total }
  , { name := "memory/hugepages/free", timestamp := now, value := toString mi.huge_pages_free }
  , { name := "memory/hugepages/surp", timestamp := now, value := toString mi.huge_pages_surp }
  , { name := "memory/hugepages/rsvd", timestamp := now, value := toString mi.huge_pages_rsvd }
  , { name := "memory/hugepagesize", timestamp := now, value := toString mi.hugepagesize }
  , { name := "memory/cma/total", timestamp := now, value := toString mi.cma_total }
  , { name := "memory/cma/free", timestamp := now, value := toString mi.cma_free } ]

/-- The static field-to-path name table of the Memory Collector, in source
order (src/main.rs:178-220). -/
def memNameTable : List String :=
  [ "memory/total", "memory/free", "memory/available", "memory/buffers"
  , "memory/cached", "memory/swap/cached", "memory/active"
  , "memory/active/anon", "memory/active/file", "memory/inactive"
  , "memory/inactive/anon", "memory/inactive/file", "memory/mlocked"
  , "memory/unevictable", "memory/swap/total", "memory/swap/free"
  , "memory/dirty", "memory/writeback", "memory/anon-pages", "memory/mapped"
  , "memory/shmem", "memory/sreclaimable", "memory/sunreclaim", "memory/slab"
  , "memory/kernelstack", "memory/pagetables", "memory/nfs-unstable"
  , "memory/bounce", "memory/writebacktmp", "memory/commitlimit"
  , "memory/committed-as", "memory/vmalloc/total", "memory/vmalloc/used"
  , "memory/vmalloc/chunk", "memory/hardware-corrupted"
  , "memory/hugepages/anon", "memory/hugepages/total", "memory/hugepages/free"
  , "memory/hugepages/surp", "memory/hugepages/rsvd", "memory/hugepagesize"
  , "memory/cma/total", "memory/cma/free" ]

/-- The numeric field values of a memory snapshot, in the order the program
reads them. -/
def memFields (mi : MemInfo) : List Nat :=
  [ mi.mem_total, mi.mem_free, mi.mem_available, mi.bufers, mi.cached
  , mi.swap_cached, mi.active, mi.active_anon, mi.active_file, mi.inactive
  , mi.inactive_anon, mi.inactive_file, mi.mlocked, mi.unevictable
  , mi.swap_total, mi.swap_free, mi.dirty, mi.writeback, mi.anon_pages
  , mi.mapped, mi.shmem, mi.s_reclaimable, mi.s_unreclaim, mi.slab
  , mi.kernel_stack, mi.page_tables, mi.nfs_unstable, mi.bounce
  , mi.writeback_tmp, mi.commit_limit, mi.committed_as, mi.vmalloc_total
  , mi.vmalloc_used, mi.vmalloc_chunk, mi.hardware_corrupted
  , mi.anon_huge_pages, mi.huge_pages_total, mi.huge_pages_free
  , mi.huge_pages_surp, mi.huge_pages_rsvd, mi.hugepagesize, mi.cma_total
  , mi.cma_free ]

/-- One row of the kernel TCP socket table as consumed by the program:
`sl` is the row's slot number in the kernel table, `local_address` the text
rendering of the row's local address (`s.local_address.to_string()`). -/
structure TcpStat where
  sl : Nat
  local_address : String
deriving Repr, DecidableEq

/-- The metrics built by the loop in `send_tcp_stats` (src/main.rs:230-233):
one per socket row in table order, named after the row's slot number, all
stamped with the single `now` captured at the top of the function. -/
def tcpMetrics (now : Nat) (rows : List TcpStat) : List Metric :=
  rows.map fun s =>
    { name := "tcp/" ++ toString s.sl ++ "/ipv4address"
    , timestamp := now
    , value := s.local_address }

/-- `send_mem_stats` (src/main.rs:170-221): captures `now`, unwraps the
`linux_stats::meminfo()` result (a panic — modelled `none` — on error), then
dispatches the 43 memory metrics in order. -/
def send_mem_stats (pub : Message → Bool) (mac : String) (now : Nat)
    (meminfo : Except String MemInfo) : Option DispatchResult :=
  match meminfo with
  | Except.error _ => none
  | Except.ok mi => some (dispatchMetrics pub mac (memMetrics now mi))

/-- `send_tcp_stats` (src/main.rs:224-234): captures its own `now`, unwraps
the `linux_stats::tcp()` result (a panic — modelled `none` — on error), then
dispatches one metric per socket row. -/
def send_tcp_stats (pub : Message → Bool) (mac : String) (now : Nat)
    (tcp : Except String (List TcpStat)) : Option DispatchResult :=
  match tcp with
  | Except.error _ => none
  | Except.ok rows => some (dispatchMetrics pub mac (tcpMetrics now rows))

/-- `send_stats` (src/main.rs:83-94): builds the two futures and drives the
memory one to completion, then the TCP one. Each future calls
`SystemTime::now()` when first polled, so the clock oracle is sampled once
per collector: call 0 inside `send_mem_stats`, call 1 inside
`send_tcp_stats`. A panic in either sub-task aborts the process (`none`). -/
def send_stats (clock : Nat → Nat) (pub : Message → Bool) (mac : String)
    (meminfo : Except String MemInfo) (tcp : Except String (List TcpStat)) :
    Option DispatchResult :=
  match send_mem_stats pub mac (clock 0) meminfo with
  | none => none
  | some r1 =>
      match send_tcp_stats pub mac (clock 1) tcp with
      | none => none
      | some r2 => some (seqResult r1 r2)

/-- All metrics produced in one tick of `send_stats`, memory first then TCP,
with each collector stamping its own clock sample. -/
def tickMetricList (clock : Nat → Nat) (mi : MemInfo) (rows : List TcpStat) :
    List Metric :=
  memMetrics (clock 0) mi ++ tcpMetrics (clock 1) rows

/-- One outcome of the three-way `tokio::select!` race (src/main.rs:51-63). -/
inductive Event
  | tick
  | sigint
  | sigterm
deriving Repr, DecidableEq

/-- How the process ends: a normal exit with a status code, or a panic
(Rust `unwrap` on an `Err`), which is an abnormal, non-zero termination. -/
inductive ExitOutcome
  | exited (code : Nat)
  | panicked
deriving Repr, DecidableEq

/-- Observable trace of the scheduling loop and shutdown path. -/
structure LoopResult where
  ticksRun : Nat
  disconnectCalls : Nat
  outcome : ExitOutcome
deriving Repr, DecidableEq

/-- The scheduling loop and shutdown (src/main.rs:50-71): each list element
is the winner of one `select!` race; a tick runs `send_stats` and loops, a
SIGINT or SIGTERM breaks out, after which `cli.disconnect(None).unwrap()` is
called exactly once — `Ok` (oracle `true`) reaches `Ok(())` and exit status
0, `Err` panics. An exhausted event list means the loop is still waiting
(`none`): the program never terminates without a signal. -/
def mainLoop : List Event → Bool → Option LoopResult
  | [], _ => none
  | Event.tick :: rest, disconnectOk =>
      match mainLoop rest disconnectOk with
      | none => none
      | some r => some { r with ticksRun := r.ticksRun + 1 }
  | Event.sigint :: _, disconnectOk =>
      some { ticksRun := 0, disconnectCalls := 1
           , outcome := if disconnectOk then ExitOutcome.exited 0
                        else ExitOutcome.panicked }
  | Event.sigterm :: _, disconnectOk =>
      some { ticksRun := 0, disconnectCalls := 1
           , outcome := if disconnectOk then ExitOutcome.exited 0
                        else ExitOutcome.panicked }

/-- An all-zero memory snapshot, used as a concrete test input. -/
def zeroMemInfo : MemInfo :=
  ⟨0, 0, 0, 0, 0, 0, 0, 0, 0, 0, 0, 0, 0, 0, 0, 0, 0, 0, 0, 0, 0, 0,
   0, 0, 0, 0, 0, 0, 0, 0, 0, 0, 0, 0, 0, 0, 0, 0, 0, 0, 0, 0, 0⟩

/-- Every message handed to `cli.publish` by a metric sequence, in order:
one per metric, regardless of the broker's answers. -/
theorem dispatchMetrics_attempted (pub : Message → Bool) (mac : String)
    (ms : List Metric) :
    (dispatchMetrics pub mac ms).attempted = ms.map (encode mac) := by
  induction ms with
  | nil => rfl
  | cons m ms ih => simp [dispatchMetrics, seqResult, send, ih]

/-- The warnings logged by a metric sequence are exactly the messages whose
publish the broker refused. -/
theorem dispatchMetrics_warnings (pub : Message → Bool) (mac : String)
    (ms : List Metric) :
    (dispatchMetrics pub mac ms).warnings
      = (ms.map (encode mac)).filter (fun msg => ! pub msg) := by
  induction ms with
  | nil => rfl
  | cons m ms ih =>
      cases h : pub (encode mac m) <;>
        simp [dispatchMetrics, seqResult, send, ih, h, List.filter]

/-- All TCP metrics of one collector run share that run's clock sample. -/
theorem tcpMetrics_timestamps (t : Nat) (rows : List TcpStat) :
    (tcpMetrics t rows).map Metric.timestamp = List.replicate rows.length t := by
  induction rows with
  | nil => rfl
  | cons r rs ih =>
      simp only [tcpMetrics, List.map_cons, List.length_cons,
        List.replicate_succ] at ih ⊢
      simpa using ih

/-- Every interface kept by `retain` came from the enumeration and is not
the loopback interface. -/
theorem retainNonLo_mem (ifaces : List String) :
    ∀ i ∈ retainNonLo ifaces, i ∈ ifaces ∧ i ≠ "lo" := by
  induction ifaces with
  | nil => simp [retainNonLo]
  | cons x xs ih =>
      intro i hi
      simp only [retainNonLo] at hi
      by_cases hx : x = "lo"
      · rw [if_pos hx] at hi
        exact ⟨List.mem_cons_of_mem _ (ih i hi).1, (ih i hi).2⟩
      · rw [if_neg hx] at hi
        rcases List.mem_cons.mp hi with h | h
        · subst h; exact ⟨List.mem_cons_self _ _, hx⟩
        · exact ⟨List.mem_cons_of_mem _ (ih i h).1, (ih i h).2⟩

/-- C2: for every broker oracle, identity, metric name, timestamp and value,
`send` hands exactly one message to `cli.publish`, with topic
`metrics/` + identity + `/` + name, payload timestamp + `;` + value, and
QoS 0; in particular the spec's example identity, name, timestamp and value
yield exactly the spec's example topic and payload. -/
theorem publish_message_format (pub : Message → Bool) (mac mname mvalue : String)
    (ts : Nat) :
    (send pub mac mname ts mvalue).attempted
        = [encode mac { name := mname, timestamp := ts, value := mvalue }]
    ∧ (encode mac { name := mname, timestamp := ts, value := mvalue }).topic
        = "metrics/" ++ mac ++ "/" ++ mname
    ∧ (encode mac { name := mname, timestamp := ts, value := mvalue }).payload
        = toString ts ++ ";" ++ mvalue
    ∧ (encode mac { name := mname, timestamp := ts, value := mvalue }).qos = 0
    ∧ encode "aa:bb:cc:dd:ee:ff"
        { name := "memory/total", timestamp := 1700000000000000000
        , value := "1048576" }
      = { topic := "metrics/aa:bb:cc:dd:ee:ff/memory/total"
        , payload := "1700000000000000000;1048576", qos := 0 } :=
  ⟨rfl, rfl, rfl, rfl, by decide⟩

/-- C3: for every capture timestamp T and memory snapshot, the Memory
Collector emits exactly one metric per snapshot field (43 metrics, names
given by the static pairwise-distinct table), each stamped T, each valued
with the corresponding field rendered in decimal; in particular `mem_total`
maps to `memory/total`, `swap_free` to `memory/swap/free` and
`huge_pages_total` to `memory/hugepages/total`. -/
theorem mem_collector_one_metric_per_field (T : Nat) (mi : MemInfo) :
    (memMetrics T mi).length = 43
    ∧ (memMetrics T mi).map Metric.name = memNameTable
    ∧ memNameTable.Nodup
    ∧ (memMetrics T mi).map Metric.timestamp = List.replicate 43 T
    ∧ (memMetrics T mi).map Metric.value = (memFields mi).map toString
    ∧ (memMetrics T mi)[0]?
        = some { name := "memory/total", timestamp := T
               , value := toString mi.mem_total }
    ∧ (memMetrics T mi)[15]?
        = some { name := "memory/swap/free", timestamp := T
               , value := toString mi.swap_free }
    ∧ (memMetrics T mi)[36]?
        = some { name := "memory/hugepages/total", timestamp := T
               , value := toString mi.huge_pages_total } :=
  ⟨rfl, rfl, by decide, rfl, rfl, rfl, rfl, rfl⟩

/-- C7: for every capture timestamp and TCP socket table, the TCP Collector
emits exactly one metric per row, in table order, named `tcp/` + the row's
kernel slot number + `/ipv4address`, valued with the row's local address
text and stamped with the capture timestamp; rows at slots 0, 3, 7 yield
exactly the names `tcp/0/ipv4address`, `tcp/3/ipv4address`,
`tcp/7/ipv4address`. -/
theorem tcp_collector_slot_metrics (now : Nat) (rows : List TcpStat)
    (a b c : String) :
    (tcpMetrics now rows).length = rows.length
    ∧ (tcpMetrics now rows).map Metric.name
        = rows.map (fun s => "tcp/" ++ toString s.sl ++ "/ipv4address")
    ∧ (tcpMetrics now rows).map Metric.value = rows.map TcpStat.local_address
    ∧ (tcpMetrics now rows).map Metric.timestamp
        = List.replicate rows.length now
    ∧ (tcpMetrics now [⟨0, a⟩, ⟨3, b⟩, ⟨7, c⟩]).map Metric.name
        = ["tcp/0/ipv4address", "tcp/3/ipv4address", "tcp/7/ipv4address"] :=
  ⟨by simp [tcpMetrics], by simp [tcpMetrics], by simp [tcpMetrics],
    tcpMetrics_timestamps now rows, by simp [tcpMetrics]; decide⟩

/-- C9: a failed kernel-statistics read is fatal: if `meminfo()` or `tcp()`
returns an error in a tick, the tick aborts the process (modelled `none`);
there is no skip-this-tick path. -/
theorem reader_failure_fatal (clock : Nat → Nat) (pub : Message → Bool)
    (mac : String) (e : String) (mi : MemInfo)
    (tcp : Except String (List TcpStat)) :
    send_stats clock pub mac (Except.error e) tcp = none
    ∧ send_stats clock pub mac (Except.ok mi) (Except.error e) = none
    ∧ send_mem_stats pub mac (clock 0) (Except.error e) = none
    ∧ send_tcp_stats pub mac (clock 1) (Except.error e) = none :=
  ⟨rfl, rfl, rfl, rfl⟩

/-- C6: whatever messages the broker refuses, a tick with readable kernel
statistics still attempts every metric exactly once, in order — publish
failures only add warnings (exactly the refused messages) and are never
surfaced to the caller (the tick's result is always `some`). -/
theorem publish_failure_nonfatal (clock : Nat → Nat) (pub : Message → Bool)
    (mac : String) (mi : MemInfo) (rows : List TcpStat) :
    ∃ r, send_stats clock pub mac (Except.ok mi) (Except.ok rows) = some r
    ∧ r.attempted = (tickMetricList clock mi rows).map (encode mac)
    ∧ r.warnings = r.attempted.filter (fun msg => ! pub msg) := by
  refine ⟨_, rfl, ?_, ?_⟩
  · simp [send_stats, send_mem_stats, send_tcp_stats, seqResult,
      dispatchMetrics_attempted, tickMetricList, List.map_append]
  · simp [send_stats, send_mem_stats, send_tcp_stats, seqResult,
      dispatchMetrics_attempted, dispatchMetrics_warnings,
      List.filter_append]

/-- C1 (counterexample): with a clock whose successive samples are 0 and 1,
one tick over an all-zero memory snapshot and a single TCP row produces
metrics with two distinct timestamps — the claim that all metrics of one tick
carry one identical capture timestamp is false. -/
theorem tick_single_timestamp_counterexample :
    ¬ ∀ m1 ∈ tickMetricList (fun i => i) zeroMemInfo
          [{ sl := 0, local_address := "0.0.0.0" }],
        ∀ m2 ∈ tickMetricList (fun i => i) zeroMemInfo
            [{ sl := 0, local_address := "0.0.0.0" }],
          m1.timestamp = m2.timestamp := by
  intro h
  have h1 : ({ name := "memory/total", timestamp := 0, value := "0" } : Metric)
      ∈ tickMetricList (fun i => i) zeroMemInfo
          [{ sl := 0, local_address := "0.0.0.0" }] := by decide
  have h2 : ({ name := "tcp/0/ipv4address", timestamp := 1
             , value := "0.0.0.0" } : Metric)
      ∈ tickMetricList (fun i => i) zeroMemInfo
          [{ sl := 0, local_address := "0.0.0.0" }] := by decide
  exact absurd (h _ h1 _ h2) (by decide)

/-- C1 (amended): each collector stamps every one of its metrics with its
own single clock sample — call 0 for the Memory Collector, call 1 for the
TCP Collector — so metrics are time-correlated within a collector, and a
tick carries one single timestamp only when the two samples coincide (e.g.
under a constant clock). -/
theorem tick_per_collector_timestamp (clock : Nat → Nat) (mi : MemInfo)
    (rows : List TcpStat) :
    (memMetrics (clock 0) mi).map Metric.timestamp
        = List.replicate 43 (clock 0)
    ∧ (tcpMetrics (clock 1) rows).map Metric.timestamp
        = List.replicate rows.length (clock 1)
    ∧ ∀ t : Nat, (tickMetricList (fun _ => t) mi rows).map Metric.timestamp
        = List.replicate (43 + rows.length) t := by
  refine ⟨rfl, tcpMetrics_timestamps (clock 1) rows, ?_⟩
  intro t
  rw [show tickMetricList (fun _ => t) mi rows
        = memMetrics t mi ++ tcpMetrics t rows from rfl,
    List.map_append, tcpMetrics_timestamps, List.replicate_add]
  rfl

/-- C4 (counterexample): the argument `"0"` parses successfully, so the
timer interval is 0 seconds — no minimum of 1 second per tick is enforced. -/
theorem interval_minimum_counterexample :
    getInterval (some "0") = 0 ∧ ¬ 1 ≤ getInterval (some "0") := by decide

/-- C4 (amended): an interval argument that parses as a 64-bit unsigned
number of seconds is used as is (including 0), any other input — and an
absent argument — falls back to the default of 10 seconds without failing;
no lower bound on the interval is enforced. -/
theorem interval_parse_fallback (s : String) :
    (∀ n, parse_u64 s = some n → getInterval (some s) = n)
    ∧ (parse_u64 s = none → getInterval (some s) = 10)
    ∧ getInterval none = 10 := by
  refine ⟨?_, ?_, rfl⟩
  · intro n hn; simp [getInterval, hn]
  · intro hn; simp [getInterval, hn]

/-- C4 (amended) at concrete inputs: `"abc"` falls back to 10 and `"7"` is
used as is. -/
theorem interval_parse_fallback_check :
    getInterval (some "abc") = 10 ∧ getInterval (some "7") = 7 :=
  ⟨(interval_parse_fallback "abc").2.1 (by decide),
    (interval_parse_fallback "7").1 7 (by decide)⟩

/-- C5 (counterexample): a SIGINT between ticks with a failing disconnect
makes the process panic — `disconnect(None).unwrap()` escalates the error,
so the process does not exit with status 0. -/
theorem shutdown_exit_zero_counterexample :
    mainLoop [Event.sigint] false
      = some { ticksRun := 0, disconnectCalls := 1
             , outcome := ExitOutcome.panicked }
    ∧ ExitOutcome.panicked ≠ ExitOutcome.exited 0 :=
  ⟨rfl, by decide⟩

/-- C5 (amended): whenever the loop terminates (a signal arrived), exactly
one disconnect call is made; if it succeeds the process exits with status 0,
and if it fails the `unwrap` panics, aborting abnormally. -/
theorem shutdown_single_disconnect (events : List Event) (disconnectOk : Bool)
    (r : LoopResult) (h : mainLoop events disconnectOk = some r) :
    r.disconnectCalls = 1
    ∧ (disconnectOk = true → r.outcome = ExitOutcome.exited 0)
    ∧ (disconnectOk = false → r.outcome = ExitOutcome.panicked) := by
  induction events generalizing r with
  | nil => exact absurd h (by simp [mainLoop])
  | cons e rest ih =>
      cases e with
      | tick =>
          simp only [mainLoop] at h
          cases hm : mainLoop rest disconnectOk with
          | none => rw [hm] at h; exact absurd h (by simp)
          | some r0 =>
              rw [hm] at h
              injection h with h
              subst h
              simpa using ih r0 hm
      | sigint =>
          simp only [mainLoop] at h
          injection h with h
          subst h
          cases disconnectOk <;> simp
      | sigterm =>
          simp only [mainLoop] at h
          injection h with h
          subst h
          cases disconnectOk <;> simp

/-- C5 (amended) at a concrete input: one SIGINT with a succeeding
disconnect gives one disconnect call and exit status 0. -/
theorem shutdown_single_disconnect_check :
    ({ ticksRun := 0, disconnectCalls := 1
     , outcome := ExitOutcome.exited 0 } : LoopResult).disconnectCalls = 1
    ∧ ({ ticksRun := 0, disconnectCalls := 1
       , outcome := ExitOutcome.exited 0 } : LoopResult).outcome
        = ExitOutcome.exited 0 := by
  have h := shutdown_single_disconnect [Event.sigint] true
    { ticksRun := 0, disconnectCalls := 1, outcome := ExitOutcome.exited 0 }
    rfl
  exact ⟨h.1, h.2.1 rfl⟩

/-- C8: identity resolution over the enumeration `lo`, `eth0`, `wlan0`
reads `eth0`'s address (never `lo`'s); in general, if dropping `lo` leaves
nothing, startup aborts (`none`), otherwise the first remaining interface —
which came from the enumeration and is not `lo` — has its address file
read, and an unreadable address file also aborts startup. -/
theorem identity_first_non_loopback (ifaces : List String)
    (readFile : String → Option String) :
    get_mac ["lo", "eth0", "wlan0"] readFile
        = readFile "/sys/class/net/eth0/address"
    ∧ (retainNonLo ifaces = [] → get_mac ifaces readFile = none)
    ∧ (∀ i rest, retainNonLo ifaces = i :: rest →
        i ∈ ifaces ∧ i ≠ "lo"
        ∧ get_mac ifaces readFile
            = readFile ("/sys/class/net/" ++ i ++ "/address"))
    ∧ (∀ i rest, retainNonLo ifaces = i :: rest →
        readFile ("/sys/class/net/" ++ i ++ "/address") = none →
        get_mac ifaces readFile = none) := by
  refine ⟨rfl, ?_, ?_, ?_⟩
  · intro h; simp [get_mac, h]
  · intro i rest h
    have hmem : i ∈ retainNonLo ifaces := by rw [h]; exact List.mem_cons_self _ _
    exact ⟨(retainNonLo_mem ifaces i hmem).1, (retainNonLo_mem ifaces i hmem).2,
      by simp [get_mac, h]⟩
  · intro i rest h hr; simp [get_mac, h, hr]

/-- C8 at concrete inputs: an enumeration with only `lo` aborts startup,
and the spec's example enumeration reads `eth0`'s address file. -/
theorem identity_first_non_loopback_check :
    get_mac ["lo"] (fun _ => some "aa") = none
    ∧ get_mac ["lo", "eth0", "wlan0"] (fun p => some p)
        = some "/sys/class/net/eth0/address" :=
  ⟨(identity_first_non_loopback ["lo"] (fun _ => some "aa")).2.1 (by decide),
    (identity_first_non_loopback [] (fun p => some p)).1⟩

/-- C10: the identity is the address file's content verbatim — whatever
`get_mac` returns is exactly what the filesystem read gave — so a content
ending in a newline is returned with the newline, and every topic built
from that identity contains the newline character. -/
theorem identity_verbatim_newline (s mname mvalue : String) (ts : Nat)
    (ifaces : List String) (readFile : String → Option String) :
    (∀ c, get_mac ifaces readFile = some c → ∃ p, readFile p = some c)
    ∧ get_mac ["eth0"] (fun _ => some (s ++ "\n")) = some (s ++ "\n")
    ∧ '\n' ∈ (encode (s ++ "\n")
        { name := mname, timestamp := ts, value := mvalue }).topic.data := by
  refine ⟨?_, rfl, ?_⟩
  · intro c hc
    unfold get_mac at hc
    cases h : retainNonLo ifaces with
    | nil => rw [h] at hc; exact absurd hc (by simp)
    | cons i rest => rw [h] at hc; exact ⟨_, hc⟩
  · simp [encode, String.data_append]

/-- C10 at a concrete input: the returned identity is some file's content
verbatim. -/
theorem identity_verbatim_newline_check :
    ∃ p, (fun q : String => some (q ++ "!")) p
      = some ("/sys/class/net/eth0/address" ++ "!") :=
  (identity_verbatim_newline "aa" "n" "v" 0 ["eth0"]
    (fun q => some (q ++ "!"))).1 ("/sys/class/net/eth0/address" ++ "!") rfl

end Vatis
